import Mathlib

/-!
Shallow embedding of the halftone-dot-generator core
(`src/core/src/halftone.ts`, `src/core/src/utils/color.ts`,
`src/core/src/types.ts`) together with theorems settling the frozen
claims about it.

JavaScript numbers are modelled as exact rationals (`ℚ`); `Math.round`,
`Math.floor`, `Math.ceil` become their exact counterparts on `ℚ`.
The RGBA pixel buffer (a `Uint8ClampedArray`) is modelled as a total
function `ℕ → ℕ`; the clamped-array invariant "every entry is in 0..255"
becomes an explicit hypothesis where a claim needs it.  The implicit
global `Math.random()` stream is modelled as an explicit function
`ℕ → ℚ` consumed two values per grid cell in row-major order, exactly
as the source performs two calls per cell.
-/

namespace Halftone

/-! ## JavaScript numeric primitives -/

/-- `Math.round` on exact rationals: round half toward positive infinity. -/
def jsRound (q : ℚ) : ℤ := ⌊q + 1/2⌋

/-- `Math.floor` on exact rationals. -/
def jsFloor (q : ℚ) : ℤ := ⌊q⌋

/-- `Math.ceil` on exact rationals. -/
def jsCeil (q : ℚ) : ℤ := ⌈q⌉

/-! ## `src/core/src/utils/color.ts` -/

/-- Value of one hexadecimal digit character, case-insensitive
(the character class `[a-f\d]` of the parsing regex, both cases via the
`i` flag). -/
def hexDigitVal (c : Char) : Option ℕ :=
  if 48 ≤ c.toNat ∧ c.toNat ≤ 57 then some (c.toNat - 48)
  else if 97 ≤ c.toNat ∧ c.toNat ≤ 102 then some (c.toNat - 87)
  else if 65 ≤ c.toNat ∧ c.toNat ≤ 70 then some (c.toNat - 55)
  else none

/-- The optional leading `#` of the parsing regex `^#?…`. -/
def stripHash : List Char → List Char
  | '#' :: rest => rest
  | cs => cs

/-- The capture groups `([a-f\d]{2})([a-f\d]{2})([a-f\d]{2})$`: exactly
six hexadecimal digits, each captured pair parsed with `parseInt(_, 16)`. -/
def parseHexPairs : List Char → Option (ℕ × ℕ × ℕ)
  | [h1, h2, h3, h4, h5, h6] =>
    match hexDigitVal h1, hexDigitVal h2, hexDigitVal h3,
          hexDigitVal h4, hexDigitVal h5, hexDigitVal h6 with
    | some a, some b, some c, some d, some e, some f =>
      some (16 * a + b, 16 * c + d, 16 * e + f)
    | _, _, _, _, _, _ => none
  | _ => none

/-- `hexToRgb` of `color.ts`: the regex
`^#?([a-f\d]{2})([a-f\d]{2})([a-f\d]{2})$` (case-insensitive) applied to
the input. -/
def hexToRgb (hex : String) : Option (ℕ × ℕ × ℕ) :=
  parseHexPairs (stripHash hex.toList)

/-- Lowercase hexadecimal digit character, as produced by JavaScript
`Number.prototype.toString(16)`. -/
def hexDigitChar (n : ℕ) : Char :=
  if n < 10 then Char.ofNat (48 + n) else Char.ofNat (87 + n)

/-- Digit list of `n.toString(16)`, with an explicit structural fuel
argument (the fuel only bounds the recursion depth; `natToHex` supplies
enough for any input). -/
def natToHexAux : ℕ → ℕ → List Char
  | 0, _ => []
  | fuel + 1, n =>
    if n < 16 then [hexDigitChar n]
    else natToHexAux fuel (n / 16) ++ [hexDigitChar (n % 16)]

/-- JavaScript `n.toString(16)` for a natural number, as a digit list. -/
def natToHex (n : ℕ) : List Char := natToHexAux (n + 1) n

/-- `padStart(6, "0")` on a digit list. -/
def padLeft6 (l : List Char) : List Char :=
  List.replicate (6 - l.length) '0' ++ l

/-- `rgbToHex` of `color.ts`:
`"#" + ((1 << 24) + (r << 16) + (g << 8) + b).toString(16).slice(1).padStart(6, "0")`. -/
def rgbToHex (r g b : ℕ) : String :=
  "#" ++ String.mk (padLeft6 ((natToHex (16777216 + r * 65536 + g * 256 + b)).drop 1))

/-- `lerpColor` of `color.ts`: parse both colors, fall back to `color1`
on any parse failure, clamp the amount to `[0,1]`, interpolate each
channel with `Math.round`, re-encode with `rgbToHex`. -/
def lerpColor (color1 color2 : String) (amount : ℚ) : String :=
  match hexToRgb color1, hexToRgb color2 with
  | some (r1, g1, b1), some (r2, g2, b2) =>
    let a := max 0 (min 1 amount)
    let r := jsRound ((r1 : ℚ) + ((r2 : ℚ) - (r1 : ℚ)) * a)
    let g := jsRound ((g1 : ℚ) + ((g2 : ℚ) - (g1 : ℚ)) * a)
    let b := jsRound ((b1 : ℚ) + ((b2 : ℚ) - (b1 : ℚ)) * a)
    rgbToHex r.toNat g.toNat b.toNat
  | _, _ => color1

/-- The `k` least significant base-16 digits of `n`, most significant
first (auxiliary for relating the two hex encodings). -/
def hexDigits : ℕ → ℕ → List Char
  | 0, _ => []
  | k + 1, n => hexDigits k (n / 16) ++ [hexDigitChar (n % 16)]

/-- Zero-padded two-hex-digit encoding of one channel value. -/
def hexPairChars (n : ℕ) : List Char :=
  [hexDigitChar (n / 16), hexDigitChar (n % 16)]

/-- Modelled from the spec (§4.2 Color Interpolator), as the reference
definition for the refinement claim about `lerpColor`: parse strict
6-hex-digit colors with optional leading `#` (case-insensitive); on
parse failure of either input return `hexA` unchanged; clamp `amount` to
`[0,1]`; per channel `round(A + (B-A)*amount)` independently for R, G,
B; re-encode as `#` followed by three zero-padded two-hex-digit
channels. -/
def lerpColorSpec (hexA hexB : String) (amount : ℚ) : String :=
  match hexToRgb hexA, hexToRgb hexB with
  | some (r1, g1, b1), some (r2, g2, b2) =>
    let a := max 0 (min 1 amount)
    let r := jsRound ((r1 : ℚ) + ((r2 : ℚ) - (r1 : ℚ)) * a)
    let g := jsRound ((g1 : ℚ) + ((g2 : ℚ) - (g1 : ℚ)) * a)
    let b := jsRound ((b1 : ℚ) + ((b2 : ℚ) - (b1 : ℚ)) * a)
    "#" ++ String.mk (hexPairChars r.toNat ++ hexPairChars g.toNat ++ hexPairChars b.toNat)
  | _, _ => hexA

/-! ## `src/core/src/types.ts` -/

inductive DotShape where
  | round
  | square
  | plus
  | custom
deriving DecidableEq

inductive GradientDirection where
  | vertical
  | horizontal
deriving DecidableEq

inductive FillPattern where
  | solid
  | stripes
  | checkerboard
deriving DecidableEq

/-- `HalftoneSettings` of `types.ts`.  `resolution` is the column count
of the sampling grid (an integer in every caller), modelled as `ℕ`. -/
structure HalftoneSettings where
  resolution : ℕ
  dotSize : ℚ
  dotShape : DotShape
  imageBlur : ℚ
  invert : Bool
  useGradient : Bool
  gradientDirection : GradientDirection
  randomness : ℚ
  color1 : String
  color2 : String
  customCharacter : String
  fillPattern : FillPattern
  angle : ℚ
deriving DecidableEq

/-- `Dot` of `types.ts`. -/
structure Dot where
  x : ℚ
  y : ℚ
  size : ℚ
  color : String
deriving DecidableEq

/-- `AnimationSettings` of `types.ts`. -/
structure AnimationSettings where
  organicPulse : Bool
  pulseStrength : ℚ
  pulseTempo : ℚ
  hoverParallax : ℚ
  clickRippleSpeed : ℚ
  uiHoverMotion : Bool
deriving DecidableEq

/-! ## `generateDotsData` (`src/core/src/halftone.ts`, lines 17-88) -/

/-- `Math.round(cols * (height / width))` as an integer (line 38). -/
def gridRowsZ (width height cols : ℕ) : ℤ :=
  jsRound ((cols : ℚ) * ((height : ℚ) / (width : ℚ)))

/-- The number of grid rows actually iterated: the loop
`for (let r = 0; r < rows; r++)` runs `rows` times when `rows ≥ 0`
(`rows` is never negative for positive inputs). -/
def gridRows (width height cols : ℕ) : ℕ := (gridRowsZ width height cols).toNat

/-- `cellWidth = width / cols` (line 39). -/
def cellWidth (width : ℕ) (cols : ℕ) : ℚ := (width : ℚ) / (cols : ℚ)

/-- `cellHeight = height / rows` (line 40). -/
def cellHeight (width height cols : ℕ) : ℚ :=
  (height : ℚ) / (gridRows width height cols : ℚ)

/-- The pixel index sampled for grid cell `(r, c)` (lines 45-52):
`sampleX = floor(x + cellWidth/2)`, `sampleY = floor(y + cellHeight/2)`
with cell top-left `(x, y) = (c*cellWidth, r*cellHeight)`, and
`pixelIndex = (sampleY * width + sampleX) * 4`. -/
def pixelIndexAt (width height : ℕ) (s : HalftoneSettings) (r c : ℕ) : ℤ :=
  let cw := cellWidth width s.resolution
  let ch := cellHeight width height s.resolution
  (jsFloor ((r : ℚ) * ch + ch / 2) * (width : ℤ) +
    jsFloor ((c : ℚ) * cw + cw / 2)) * 4

/-- The BT.601 luminance sampled for grid cell `(r, c)`, before the
optional inversion (lines 53-58): the R, G, B channels are fetched at
`pixelIndex`, `pixelIndex+1`, `pixelIndex+2` and converted with
`(0.299 R + 0.587 G + 0.114 B) / 255`. -/
def rawLuminance (pixelData : ℕ → ℕ) (width height : ℕ)
    (s : HalftoneSettings) (r c : ℕ) : ℚ :=
  (0.299 * (pixelData (pixelIndexAt width height s r c).toNat : ℚ) +
    0.587 * (pixelData (pixelIndexAt width height s r c + 1).toNat : ℚ) +
    0.114 * (pixelData (pixelIndexAt width height s r c + 2).toNat : ℚ)) / 255

/-- Body of the doubly nested loop of `generateDotsData` (lines 43-85):
the dot generated for grid cell `(r, c)`.  `rand` is the `Math.random()`
stream; cell `(r, c)` is the `(r * cols + c)`-th cell processed and
consumes the stream values at `2*(r*cols+c)` and `2*(r*cols+c)+1`. -/
def genDot (pixelData : ℕ → ℕ) (width height : ℕ)
    (s : HalftoneSettings) (rand : ℕ → ℚ) (r c : ℕ) : Dot :=
  let cw := cellWidth width s.resolution
  let ch := cellHeight width height s.resolution
  let x : ℚ := (c : ℚ) * cw
  let y : ℚ := (r : ℚ) * ch
  let luminance0 := rawLuminance pixelData width height s r c
  let luminance := if s.invert then 1 - luminance0 else luminance0
  let baseSize := (min cw ch / 2) * s.dotSize
  let size := baseSize * luminance
  let i := r * s.resolution + c
  let randX := (rand (2 * i) - 0.5) * s.randomness * cw
  let randY := (rand (2 * i + 1) - 0.5) * s.randomness * ch
  let color :=
    if s.useGradient then
      lerpColor s.color1 s.color2
        (if s.gradientDirection = GradientDirection.vertical
         then y / (height : ℚ) else x / (width : ℚ))
    else s.color1
  { x := x + cw / 2 + randX, y := y + ch / 2 + randY, size := size, color := color }

/-- `generateDotsData` (lines 17-88): row-major iteration over the grid,
one dot per cell. -/
def generateDotsData (pixelData : ℕ → ℕ) (width height : ℕ)
    (s : HalftoneSettings) (rand : ℕ → ℚ) : List Dot :=
  (List.range (gridRows width height s.resolution)).flatMap fun r =>
    (List.range s.resolution).map fun c =>
      genDot pixelData width height s rand r c

/-! ## `generateSvgString` (`src/core/src/halftone.ts`, lines 103-244) -/

/-- Destructuring `animationSettings || {}` with default `organicPulse = true`
(line 113): the optional parameter being absent yields the default. -/
def animOrganicPulse : Option AnimationSettings → Bool
  | none => true
  | some a => a.organicPulse

/-- Default `pulseStrength = 0.08` (line 114). -/
def animPulseStrength : Option AnimationSettings → ℚ
  | none => 0.08
  | some a => a.pulseStrength

/-- Default `pulseTempo = 1` (line 115). -/
def animPulseTempo : Option AnimationSettings → ℚ
  | none => 1
  | some a => a.pulseTempo

/-- `Math.max(0, Math.min(pulseStrength, 0.35))` of the static SVG
renderer (line 139). -/
def svgClampedPulse (pulseStrength : ℚ) : ℚ := max 0 (min pulseStrength 0.35)

/-- `Math.max(0.25, Math.min(pulseTempo, 3))` of the static SVG renderer
(line 140). -/
def svgClampedTempo (pulseTempo : ℚ) : ℚ := max 0.25 (min pulseTempo 3)

/-- Stand-in for JavaScript `Number.prototype.toFixed(2)`: decimal string
with exactly two fractional digits, rounding the decimal value half away
from zero. -/
def toFixed2 (q : ℚ) : String :=
  let n := (jsFloor (|q| * 100 + 1/2)).toNat
  (if q < 0 then "-" else "") ++ toString (n / 100) ++ "." ++
    (if n % 100 < 10 then "0" else "") ++ toString (n % 100)

/-- Stand-in for default JavaScript number-to-string conversion used by
template interpolation of whole settings values (such as `angle`). -/
def qToStr (q : ℚ) : String := toString q

/-- The `toFixed(2)` of an animation value followed by `s` (seconds). -/
def secondsStr (q : ℚ) : String := toFixed2 q ++ "s"

/-- The `<pattern>` definitions emitted for non-solid fill patterns
(lines 123-136); the empty string for `solid`. -/
def patternDefs (s : HalftoneSettings) : String :=
  match s.fillPattern with
  | FillPattern.stripes =>
    "\n<pattern id=\"fillPattern\" patternUnits=\"userSpaceOnUse\" width=\"8\" height=\"8\">\n" ++
    "    <rect width=\"8\" height=\"8\" fill=\"" ++ s.color2 ++ "\"/>\n" ++
    "    <path d=\"M-2,2 l4,-4 M0,8 l8,-8 M6,10 l4,-4\" stroke=\"" ++ s.color1 ++
    "\" stroke-width=\"2\"/>\n</pattern>"
  | FillPattern.checkerboard =>
    "\n<pattern id=\"fillPattern\" patternUnits=\"userSpaceOnUse\" width=\"10\" height=\"10\">\n" ++
    "  <rect width=\"10\" height=\"10\" fill=\"" ++ s.color2 ++ "\"/>\n" ++
    "  <rect width=\"5\" height=\"5\" x=\"0\" y=\"0\" fill=\"" ++ s.color1 ++ "\"/>\n" ++
    "  <rect width=\"5\" height=\"5\" x=\"5\" y=\"5\" fill=\"" ++ s.color1 ++ "\"/>\n</pattern>"
  | FillPattern.solid => ""

/-- The `<defs><style>…</style>…</defs>` block (lines 144-173): the
`htPulse` keyframes when the organic pulse is on, and the `.ht-dot`
rule.  CSS braces are escaped as `\x7b`/`\x7d`. -/
def svgDefs (s : HalftoneSettings) (organicPulse : Bool)
    (clampedPulse maxScale : ℚ) : String :=
  "<defs>\n<style>\n" ++
  (if organicPulse then
    "@keyframes htPulse \x7b\n  0%, 100% \x7b transform: scale(1); opacity: " ++
    toFixed2 (0.85 - clampedPulse * 0.25) ++
    "; \x7d\n  50% \x7b transform: scale(" ++ toFixed2 maxScale ++
    "); opacity: 1; \x7d\n\x7d"
   else "") ++
  "\n.ht-dot \x7b\n  transform-origin: center;\n  " ++
  (if organicPulse then
    "animation-name: htPulse;\n  animation-timing-function: ease-in-out;\n  animation-iteration-count: infinite;"
   else "") ++
  "\n  transition:\n    transform 260ms cubic-bezier(0.16, 1, 0.3, 1),\n    filter 260ms ease-out,\n    opacity 260ms ease-out;\n\x7d\n</style>\n" ++
  patternDefs s ++ "\n</defs>"

/-- `escapedChar` (lines 225-228): sequential replacement of `&`, `<`,
`>` by their entities. -/
def escapeGlyph (str : String) : String :=
  ((str.replace "&" "&amp;").replace "<" "&lt;").replace ">" "&gt;"

/-- The markup appended for one dot by the `dots.forEach` body
(lines 176-238), or `none` when `dot.size ≤ 0.1` (the `if (dot.size > 0.1)`
guard on line 177 appends nothing).  Exactly one shape element
(`<circle>`, `<rect>` or `<text>`, selected by `dotShape`) is wrapped in
one `<g class="ht-dot" …>` group. -/
def dotSvgFragment (width height : ℚ) (s : HalftoneSettings)
    (organicPulse : Bool) (clampedTempo : ℚ) (dot : Dot) : Option String :=
  if dot.size > 0.1 then
    let fillAttr :=
      if s.fillPattern = FillPattern.solid then "fill=\"" ++ dot.color ++ "\""
      else "fill=\"url(#fillPattern)\""
    let transformAttr :=
      if s.dotShape ≠ DotShape.round ∧ s.angle ≠ 0 then
        " transform=\"rotate(" ++ qToStr s.angle ++ " " ++ toFixed2 dot.x ++
        " " ++ toFixed2 dot.y ++ ")\""
      else ""
    let normX := dot.x / width
    let normY := dot.y / height
    let delay := (normX + normY) * 4 / clampedTempo
    let duration := (6 + normX * 2) / clampedTempo
    let dataAttrs :=
      "data-x=\"" ++ toFixed2 dot.x ++ "\" data-y=\"" ++ toFixed2 dot.y ++ "\""
    let groupStyle :=
      if organicPulse then
        " style=\"animation-duration:" ++ secondsStr duration ++
        ";animation-delay:" ++ secondsStr delay ++ "\""
      else ""
    let groupOpen := "<g class=\"ht-dot\" " ++ dataAttrs ++ groupStyle ++ ">"
    let groupClose := "</g>\n"
    let body :=
      match s.dotShape with
      | DotShape.round =>
        "<circle cx=\"" ++ toFixed2 dot.x ++ "\" cy=\"" ++ toFixed2 dot.y ++
        "\" r=\"" ++ toFixed2 dot.size ++ "\" " ++ fillAttr ++ " />"
      | DotShape.square =>
        let w := toFixed2 (dot.size * 2)
        "<rect x=\"" ++ toFixed2 (dot.x - dot.size) ++ "\" y=\"" ++
        toFixed2 (dot.y - dot.size) ++ "\" width=\"" ++ w ++ "\" height=\"" ++
        w ++ "\" " ++ fillAttr ++ transformAttr ++ " />"
      | DotShape.plus =>
        "<text x=\"" ++ toFixed2 dot.x ++ "\" y=\"" ++ toFixed2 dot.y ++
        "\" font-size=\"" ++ toFixed2 (dot.size * 3) ++ "\" " ++ fillAttr ++
        " font-family=\"sans-serif\" font-weight=\"bold\" text-anchor=\"middle\" dominant-baseline=\"middle\"" ++
        transformAttr ++ ">" ++ escapeGlyph "+" ++ "</text>"
      | DotShape.custom =>
        let ch := if s.customCharacter = "" then "*" else s.customCharacter
        "<text x=\"" ++ toFixed2 dot.x ++ "\" y=\"" ++ toFixed2 dot.y ++
        "\" font-size=\"" ++ toFixed2 (dot.size * 3) ++ "\" " ++ fillAttr ++
        " font-family=\"sans-serif\" font-weight=\"bold\" text-anchor=\"middle\" dominant-baseline=\"middle\"" ++
        transformAttr ++ ">" ++ escapeGlyph ch ++ "</text>"
    some (groupOpen ++ body ++ groupClose)
  else none

/-- The list of per-dot markup fragments the `forEach` loop appends: one
fragment (holding exactly one shape element) per dot passing the
`size > 0.1` guard, in dot order. -/
def svgDotFragments (dots : List Dot) (width height : ℚ)
    (s : HalftoneSettings) (organicPulse : Bool) (clampedTempo : ℚ) : List String :=
  dots.filterMap (dotSvgFragment width height s organicPulse clampedTempo)

/-- `generateSvgString` (lines 103-244): empty string for an empty dot
list, otherwise the `<svg>` document wrapping the defs block and the
concatenated per-dot fragments. -/
def generateSvgString (dots : List Dot) (width height : ℚ)
    (s : HalftoneSettings) (animationSettings : Option AnimationSettings) : String :=
  let organicPulse := animOrganicPulse animationSettings
  let clampedPulse := svgClampedPulse (animPulseStrength animationSettings)
  let clampedTempo := svgClampedTempo (animPulseTempo animationSettings)
  let maxScale := 1 + clampedPulse
  if dots.length = 0 then ""
  else
    "<svg width=\"" ++ qToStr width ++ "\" height=\"" ++ qToStr height ++
    "\" viewBox=\"0 0 " ++ qToStr width ++ " " ++ qToStr height ++
    "\" xmlns=\"http://www.w3.org/2000/svg\">\n" ++
    svgDefs s organicPulse clampedPulse maxScale ++ "\n" ++
    String.join (svgDotFragments dots width height s organicPulse clampedTempo) ++
    "</svg>"

/-! ## `generateLottieAnimation` (`src/core/src/halftone.ts`, lines 314-660)

The produced document is a JSON value built from plain object literals;
it is modelled structurally, one Lean structure field per JSON field
that varies between outputs.  Fields whose value is the same literal in
every output (`ddd: 0`, `ty: 4`, `sr: 1`, `ao: 0`, `bm: 0`, the group
wrapper constants `nm: "Dot Group"`, `np: 2`, `cix: 2`, the bezier
handles `i`/`o` of every keyframe, `assets: []`, `markers: []`) are kept
as structure fields with the constant value so the assembled shape
matches the source object literals.  The debug `fetch(...)` calls (the
`#region agent log` blocks) are fire-and-forget side effects with all
failures swallowed; they do not affect the returned document and are not
modelled. -/

/-- A Lottie keyframe as built by `createKeyframe` (lines 274-290):
fixed bezier handles, frame `t`, start value `s`, optional end value `e`.
Scalar values are wrapped into singleton arrays by the source, hence
`List ℚ`. -/
structure LottieKeyframe where
  ix : ℚ := 0.833
  iy : ℚ := 0.833
  ox : ℚ := 0.167
  oy : ℚ := 0.167
  t : ℤ
  s : List ℚ
  e : Option (List ℚ)
deriving DecidableEq

/-- A Lottie property: `{a: 1, k: keyframes}` from
`createAnimatedProperty`, `{a: 0, k: value}` from `createStaticProperty`,
or the bare default value returned by `createAnimatedProperty` when the
keyframe list is empty (lines 293-312). -/
inductive LottieProp where
  | animated (k : List LottieKeyframe)
  | static (k : List ℚ)
  | raw (k : List ℚ)
deriving DecidableEq

/-- `createKeyframe(frame, value, endValue)` (lines 274-290). -/
def createKeyframe (frame : ℤ) (value : List ℚ) (endValue : Option (List ℚ)) :
    LottieKeyframe :=
  { t := frame, s := value, e := endValue }

/-- `createAnimatedProperty(keyframes, defaultValue)` (lines 293-304). -/
def createAnimatedProperty (keyframes : List LottieKeyframe) (defaultValue : List ℚ) :
    LottieProp :=
  if keyframes.isEmpty then LottieProp.raw defaultValue
  else LottieProp.animated keyframes

/-- `createStaticProperty(value)` (lines 307-312). -/
def createStaticProperty (value : List ℚ) : LottieProp := LottieProp.static value

/-- The shape item of a layer (lines 481-518): `ty` is `"el"` or `"rc"`,
with position and size properties; `r` is the corner radius field present
only on the rectangle. -/
structure LottieShape where
  ty : String
  p : LottieProp
  s : LottieProp
  r : Option ℚ
deriving DecidableEq

/-- The fill item of a layer (lines 522-528). -/
structure LottieFill where
  ty : String := "fl"
  o : LottieProp
  c : LottieProp
  r : ℚ := 1
  bm : ℚ := 0
deriving DecidableEq

/-- The `shapes[0]` group wrapper (lines 544-553). -/
structure LottieGroup where
  ty : String := "gr"
  shape : LottieShape
  fill : LottieFill
  nm : String := "Dot Group"
  np : ℚ := 2
  cix : ℚ := 2
  bm : ℚ := 0
deriving DecidableEq

/-- One shape layer (lines 530-558). -/
structure LottieLayer where
  ddd : ℕ := 0
  ind : ℕ
  ty : ℕ := 4
  nm : String
  sr : ℚ := 1
  o : LottieProp
  r : LottieProp
  p : LottieProp
  a : LottieProp
  s : LottieProp
  ao : ℕ := 0
  shapes : List LottieGroup
  ip : ℤ
  op : ℤ
  st : ℤ
  bm : ℕ := 0
deriving DecidableEq

/-- The top-level Lottie document (lines 605-617). -/
structure LottieAnimation where
  v : String := "5.7.4"
  fr : ℕ := 60
  ip : ℤ := 0
  op : ℤ
  w : ℚ
  h : ℚ
  nm : String := "Halftone Animation"
  ddd : ℕ := 0
  assets : List Unit := []
  layers : List LottieLayer
  markers : List Unit := []
deriving DecidableEq

/-- `Math.max(0, Math.min(pulseStrength, 0.35))` of the Lottie renderer
(line 350). -/
def lottieClampedPulse (pulseStrength : ℚ) : ℚ := max 0 (min pulseStrength 0.35)

/-- `Math.max(0.25, Math.min(pulseTempo, 3))` of the Lottie renderer
(line 351). -/
def lottieClampedTempo (pulseTempo : ℚ) : ℚ := max 0.25 (min pulseTempo 3)

/-- `Math.ceil(filteredDots.length / maxDots)` with `maxDots = 200`
(line 387), as a natural number stride. -/
def lottieStride (n : ℕ) : ℕ := (jsCeil ((n : ℚ) / 200)).toNat

/-- `list.filter((_, i) => i % k === 0)` starting at index `i`: the
index-stride subsampling of line 386-388 written as structural recursion
over the list with an explicit running index. -/
def filterIdxMod {α : Type} (k : ℕ) : ℕ → List α → List α
  | _, [] => []
  | i, d :: rest =>
    if i % k = 0 then d :: filterIdxMod k (i + 1) rest
    else filterIdxMod k (i + 1) rest

/-- Lines 383-389: subsample `filteredDots` down to at most `maxDots = 200`
entries by keeping every `ceil(n/200)`-th index; lists of at most 200
entries are kept whole. -/
def sampleDots (filteredDots : List Dot) : List Dot :=
  if filteredDots.length > 200 then
    filterIdxMod (lottieStride filteredDots.length) 0 filteredDots
  else filteredDots

/-- The layer built for `dot` at `index` by the `sampledDots.map`
callback (lines 415-601). -/
def mkLottieLayer (width height : ℚ) (s : HalftoneSettings)
    (organicPulse : Bool) (clampedTempo maxScale : ℚ) (outPoint : ℤ)
    (index : ℕ) (dot : Dot) : LottieLayer :=
  let normX := dot.x / width
  let normY := dot.y / height
  let delaySeconds := (normX + normY) * 4 / clampedTempo
  let durationSeconds := (6 + normX * 2) / clampedTempo
  let delayFrames := jsRound (delaySeconds * 60)
  let durationFrames := jsRound (durationSeconds * 60)
  let inPoint : ℤ := 0
  let layerOutPoint := outPoint
  let scaleKeyframes :=
    if organicPulse then
      let clampedDelay := min delayFrames (outPoint - 10)
      let clampedDuration := min durationFrames (outPoint - clampedDelay)
      let midFrame :=
        min (clampedDelay + jsRound ((clampedDuration : ℚ) * 0.5)) (outPoint - 1)
      [createKeyframe 0 [100, 100] (some [100, 100]),
       createKeyframe midFrame [maxScale * 100, maxScale * 100]
         (some [maxScale * 100, maxScale * 100]),
       createKeyframe outPoint [100, 100] (some [100, 100])]
    else
      [createKeyframe 0 [100, 100] (some [100, 100])]
  let opacityKeyframes :=
    if organicPulse then
      let clampedDelay := min delayFrames (outPoint - 10)
      let clampedDuration := min durationFrames (outPoint - clampedDelay)
      let midFrame :=
        min (clampedDelay + jsRound ((clampedDuration : ℚ) * 0.5)) (outPoint - 1)
      [createKeyframe 0 [100] (some [100]),
       createKeyframe midFrame [100] (some [100]),
       createKeyframe outPoint [100] (some [100])]
    else
      [createKeyframe 0 [100] (some [100])]
  let rgb : List ℚ := [0, 0, 0]
  let baseSize := dot.size
  let scaleFactor : ℚ := 10
  let rawDiameter := baseSize * 2 * scaleFactor
  let minDiameter : ℚ := 5
  let diameter := max rawDiameter minDiameter
  let shape : LottieShape :=
    match s.dotShape with
    | DotShape.round =>
      { ty := "el", p := createStaticProperty [0, 0],
        s := createStaticProperty [diameter, diameter], r := none }
    | DotShape.square =>
      { ty := "rc", p := createStaticProperty [0, 0],
        s := createStaticProperty [diameter, diameter], r := some 0 }
    | DotShape.plus =>
      { ty := "el", p := createStaticProperty [0, 0],
        s := createStaticProperty [diameter, diameter], r := none }
    | DotShape.custom =>
      { ty := "el", p := createStaticProperty [0, 0],
        s := createStaticProperty [diameter, diameter], r := none }
  let fill : LottieFill :=
    { o := createStaticProperty [100], c := createStaticProperty rgb }
  { ind := index + 1,
    nm := "Dot " ++ toString (index + 1),
    o := createAnimatedProperty opacityKeyframes [100],
    r := createStaticProperty [s.angle],
    p := createStaticProperty [dot.x, dot.y, 0],
    a := createStaticProperty [0, 0, 0],
    s := createAnimatedProperty scaleKeyframes [100, 100, 100],
    shapes := [{ shape := shape, fill := fill }],
    ip := inPoint, op := layerOutPoint, st := inPoint }

/-- `sampledDots.map((dot, index) => …)` written as structural recursion
with an explicit running index. -/
def lottieLayersFrom (width height : ℚ) (s : HalftoneSettings)
    (organicPulse : Bool) (clampedTempo maxScale : ℚ) (outPoint : ℤ) :
    ℕ → List Dot → List LottieLayer
  | _, [] => []
  | i, d :: rest =>
    mkLottieLayer width height s organicPulse clampedTempo maxScale outPoint i d ::
      lottieLayersFrom width height s organicPulse clampedTempo maxScale outPoint (i + 1) rest

/-- `generateLottieAnimation` (lines 314-660). -/
def generateLottieAnimation (dots : List Dot) (width height : ℚ)
    (s : HalftoneSettings) (animationSettings : Option AnimationSettings) :
    LottieAnimation :=
  let organicPulse := animOrganicPulse animationSettings
  let clampedPulse := lottieClampedPulse (animPulseStrength animationSettings)
  let clampedTempo := lottieClampedTempo (animPulseTempo animationSettings)
  let maxScale := 1 + clampedPulse
  let maxDurationSeconds := 8 / clampedTempo
  let outPoint := jsCeil (maxDurationSeconds * 60)
  let filteredDots := dots.filter (fun dot => dot.size > 0.1)
  let sampledDots := sampleDots filteredDots
  let layers :=
    lottieLayersFrom width height s organicPulse clampedTempo maxScale outPoint
      0 sampledDots
  { op := outPoint, w := width, h := height, layers := layers.reverse }

/-- The geometric content of a dot: position and size, without the
color.  Used to state that the Lottie export depends on dots only
through this projection. -/
def dotGeom (d : Dot) : ℚ × ℚ × ℚ := (d.x, d.y, d.size)

/-! ## Fixtures for witnesses and counterexamples -/

/-- All-zero pixel buffer. -/
def zeroPixels : ℕ → ℕ := fun _ => 0

/-- All-white pixel buffer (every channel 255). -/
def whitePixels : ℕ → ℕ := fun _ => 255

/-- A zero random stream. -/
def zeroRand : ℕ → ℚ := fun _ => 0

/-- A nontrivial random stream, used to exhibit independence from the
random source. -/
def altRand : ℕ → ℚ := fun n => (n : ℚ) / 7 + 1 / 3

/-- Fixture dot list; same geometry as `dotsB`, different color. -/
def dotsA : List Dot := [{ x := 1, y := 2, size := 5, color := "#ff0000" }]

/-- Fixture dot list; same geometry as `dotsA`, different color. -/
def dotsB : List Dot := [{ x := 1, y := 2, size := 5, color := "#00ff00" }]

/-- Baseline settings fixture: resolution 1, no gradient, no jitter. -/
def baseSettings : HalftoneSettings :=
  { resolution := 1, dotSize := 1, dotShape := DotShape.round, imageBlur := 0,
    invert := false, useGradient := false,
    gradientDirection := GradientDirection.vertical, randomness := 0,
    color1 := "#000000", color2 := "#ffffff", customCharacter := "",
    fillPattern := FillPattern.solid, angle := 0 }

/-- Settings fixture with a vertical black-to-white gradient. -/
def gradientSettings : HalftoneSettings :=
  { baseSettings with useGradient := true }

/-! ## Helper lemmas -/

theorem jsRound_eq {q : ℚ} {n : ℤ} (h1 : (n : ℚ) ≤ q + 1/2)
    (h2 : q + 1/2 < n + 1) : jsRound q = n := by
  unfold jsRound
  rw [Int.floor_eq_iff]
  exact ⟨h1, by exact_mod_cast h2⟩

theorem jsCeil_eq {q : ℚ} {n : ℤ} (h1 : (n : ℚ) - 1 < q) (h2 : q ≤ n) :
    jsCeil q = n := by
  unfold jsCeil
  rw [Int.ceil_eq_iff]
  exact ⟨by exact_mod_cast h1, h2⟩

/-- `lerpColor` clamps its amount internally, so pre-clamping the amount
to `[0,1]` does not change the result. -/
theorem lerpColor_clamp (color1 color2 : String) (a : ℚ) :
    lerpColor color1 color2 (min 1 (max 0 a)) = lerpColor color1 color2 a := by
  have key : max 0 (min 1 (min 1 (max 0 a))) = max 0 (min 1 a) := by
    simp only [min_def, max_def]
    split_ifs <;> first | rfl | linarith
  unfold lerpColor
  rw [key]

/-- Evaluation rule for `lerpColor` once both parses are known. -/
theorem lerpColor_eval {color1 color2 : String} {r1 g1 b1 r2 g2 b2 : ℕ}
    (h1 : hexToRgb color1 = some (r1, g1, b1))
    (h2 : hexToRgb color2 = some (r2, g2, b2)) (amount : ℚ) :
    lerpColor color1 color2 amount =
      rgbToHex
        (jsRound ((r1 : ℚ) + ((r2 : ℚ) - (r1 : ℚ)) * max 0 (min 1 amount))).toNat
        (jsRound ((g1 : ℚ) + ((g2 : ℚ) - (g1 : ℚ)) * max 0 (min 1 amount))).toNat
        (jsRound ((b1 : ℚ) + ((b2 : ℚ) - (b1 : ℚ)) * max 0 (min 1 amount))).toNat := by
  unfold lerpColor
  rw [h1, h2]

/-! ## Claim C5: `lerpColor` refines the spec reference definition -/

theorem hexDigitVal_le {c : Char} {v : ℕ} (h : hexDigitVal c = some v) :
    v ≤ 15 := by
  unfold hexDigitVal at h
  split_ifs at h with h1 h2 h3 <;> injection h with h <;> omega

theorem parseHexPairs_le {cs : List Char} {r g b : ℕ}
    (h : parseHexPairs cs = some (r, g, b)) : r ≤ 255 ∧ g ≤ 255 ∧ b ≤ 255 := by
  unfold parseHexPairs at h
  split at h
  · split at h
    · rename_i a b' c d e f ha hb hc hd he hf
      injection h with h
      rw [Prod.ext_iff, Prod.ext_iff] at h
      simp only at h
      obtain ⟨h1, h2, h3⟩ := h
      have := hexDigitVal_le ha
      have := hexDigitVal_le hb
      have := hexDigitVal_le hc
      have := hexDigitVal_le hd
      have := hexDigitVal_le he
      have := hexDigitVal_le hf
      omega
    · exact absurd h (by simp)
  · exact absurd h (by simp)

theorem hexToRgb_le {str : String} {r g b : ℕ}
    (h : hexToRgb str = some (r, g, b)) : r ≤ 255 ∧ g ≤ 255 ∧ b ≤ 255 :=
  parseHexPairs_le h

/-- The interpolated channel value stays in `[0, 255]` when both
endpoints do. -/
theorem jsRound_channel_bound {x y : ℕ} (hx : x ≤ 255) (hy : y ≤ 255)
    (amount : ℚ) :
    0 ≤ jsRound ((x : ℚ) + ((y : ℚ) - (x : ℚ)) * max 0 (min 1 amount)) ∧
      jsRound ((x : ℚ) + ((y : ℚ) - (x : ℚ)) * max 0 (min 1 amount)) ≤ 255 := by
  set a := max 0 (min 1 amount) with ha
  have ha0 : 0 ≤ a := le_max_left _ _
  have ha1 : a ≤ 1 := max_le (by norm_num) (min_le_left _ _)
  have hx0 : (0 : ℚ) ≤ (x : ℚ) := by positivity
  have hy0 : (0 : ℚ) ≤ (y : ℚ) := by positivity
  have hx' : (x : ℚ) ≤ 255 := by exact_mod_cast hx
  have hy' : (y : ℚ) ≤ 255 := by exact_mod_cast hy
  have hq0 : 0 ≤ (x : ℚ) + ((y : ℚ) - (x : ℚ)) * a := by
    nlinarith [mul_nonneg ha0 hy0, mul_nonneg (sub_nonneg.2 ha1) hx0]
  have hq1 : (x : ℚ) + ((y : ℚ) - (x : ℚ)) * a ≤ 255 := by
    nlinarith [mul_nonneg ha0 (sub_nonneg.2 hy'), mul_nonneg (sub_nonneg.2 ha1) (sub_nonneg.2 hx')]
  constructor
  · unfold jsRound
    rw [Int.le_floor]
    push_cast
    linarith
  · unfold jsRound
    have : ⌊(x : ℚ) + ((y : ℚ) - (x : ℚ)) * a + 1/2⌋ < 256 := by
      rw [Int.floor_lt]
      push_cast
      linarith
    omega

theorem natToHexAux_pow_add {k f x : ℕ} (hf : k ≤ f) (hx : x < 16 ^ k) :
    natToHexAux (f + 1) (16 ^ k + x) = '1' :: hexDigits k x := by
  induction k generalizing f x with
  | zero =>
    have hx0 : x = 0 := by omega
    subst hx0
    simp [natToHexAux, hexDigits]
    decide
  | succ k ih =>
    obtain ⟨f0, rfl⟩ : ∃ f0, f = f0 + 1 := ⟨f - 1, by omega⟩
    have h16 : (16 : ℕ) ≤ 16 ^ (k + 1) := by
      calc (16 : ℕ) = 16 ^ 1 := (pow_one 16).symm
      _ ≤ 16 ^ (k + 1) := Nat.pow_le_pow_right (by norm_num) (by omega)
    have hge : ¬ (16 ^ (k + 1) + x < 16) := by omega
    rw [natToHexAux, if_neg hge]
    have hdiv : (16 ^ (k + 1) + x) / 16 = 16 ^ k + x / 16 := by
      rw [pow_succ, mul_comm (16 ^ k) 16, Nat.mul_add_div (by norm_num)]
    have hmod : (16 ^ (k + 1) + x) % 16 = x % 16 := by
      rw [pow_succ, mul_comm (16 ^ k) 16, Nat.mul_add_mod]
    rw [hdiv, hmod]
    have hxd : x / 16 < 16 ^ k := by
      rw [Nat.div_lt_iff_lt_mul (by norm_num)]
      rw [pow_succ] at hx
      exact hx
    rw [ih (by omega) hxd]
    simp [hexDigits]

theorem hexDigits_length (k n : ℕ) : (hexDigits k n).length = k := by
  induction k generalizing n with
  | zero => rfl
  | succ k ih => simp [hexDigits, ih]

theorem hexDigits_add {j k a b : ℕ} (hb : b < 16 ^ k) :
    hexDigits (j + k) (a * 16 ^ k + b) = hexDigits j a ++ hexDigits k b := by
  induction k generalizing b with
  | zero =>
    have hb0 : b = 0 := by omega
    subst hb0
    simp [hexDigits]
  | succ k ih =>
    rw [Nat.add_succ]
    simp only [hexDigits]
    have hdiv : (a * 16 ^ (k + 1) + b) / 16 = a * 16 ^ k + b / 16 := by
      rw [pow_succ, ← mul_assoc, mul_comm (a * 16 ^ k) 16, Nat.mul_add_div (by norm_num)]
    have hmod : (a * 16 ^ (k + 1) + b) % 16 = b % 16 := by
      rw [pow_succ, ← mul_assoc, mul_comm (a * 16 ^ k) 16, Nat.mul_add_mod]
    have hbd : b / 16 < 16 ^ k := by
      rw [Nat.div_lt_iff_lt_mul (by norm_num)]
      rw [pow_succ] at hb
      exact hb
    rw [hdiv, hmod, ih hbd]
    simp [hexDigits]

theorem hexDigits_two {n : ℕ} (h : n < 256) : hexDigits 2 n = hexPairChars n := by
  have hd : n / 16 < 16 := by omega
  simp [hexDigits, hexPairChars, Nat.mod_eq_of_lt hd]

/-- For channel values in `0..255`, the source encoding
(`(1<<24 | …).toString(16).slice(1).padStart(6,"0")`) agrees with the
per-channel zero-padded two-digit encoding. -/
theorem rgbToHex_eq_pairs {r g b : ℕ} (hr : r ≤ 255) (hg : g ≤ 255)
    (hb : b ≤ 255) :
    rgbToHex r g b =
      "#" ++ String.mk (hexPairChars r ++ hexPairChars g ++ hexPairChars b) := by
  unfold rgbToHex natToHex
  have e4 : (16 : ℕ) ^ 4 = 65536 := by norm_num
  have e2 : (16 : ℕ) ^ 2 = 256 := by norm_num
  have e6 : (16 : ℕ) ^ 6 = 16777216 := by norm_num
  have key : 16777216 + r * 65536 + g * 256 + b =
      16 ^ 6 + (r * 16 ^ 4 + (g * 16 ^ 2 + b)) := by
    rw [e4, e2, e6]; omega
  rw [key]
  have hx : r * 16 ^ 4 + (g * 16 ^ 2 + b) < 16 ^ 6 := by
    rw [e4, e2, e6]; omega
  have hf6 : (6 : ℕ) ≤ 16 ^ 6 + (r * 16 ^ 4 + (g * 16 ^ 2 + b)) := by
    rw [e6]; omega
  rw [natToHexAux_pow_add hf6 hx]
  have hy : g * 16 ^ 2 + b < 16 ^ 4 := by rw [e2, e4]; omega
  have hsplit1 : hexDigits 6 (r * 16 ^ 4 + (g * 16 ^ 2 + b)) =
      hexDigits 2 r ++ hexDigits 4 (g * 16 ^ 2 + b) :=
    hexDigits_add (j := 2) (k := 4) (a := r) (b := g * 16 ^ 2 + b) hy
  have hsplit2 : hexDigits 4 (g * 16 ^ 2 + b) =
      hexDigits 2 g ++ hexDigits 2 b :=
    hexDigits_add (j := 2) (k := 2) (a := g) (b := b) (by rw [e2]; omega)
  simp only [List.drop_succ_cons, List.drop_zero]
  rw [hsplit1, hsplit2, hexDigits_two (by omega), hexDigits_two (by omega),
    hexDigits_two (by omega)]
  unfold padLeft6
  simp [hexPairChars]

/-- C5 (confirmed).  `lerpColor` agrees with the reference definition
written from the spec (parse-failure fallback to the first color,
amount clamped to `[0,1]`, per-channel rounding, `#`-prefixed
zero-padded per-channel hex encoding), and in particular
`lerpColor "#000000" "#ffffff" 0.5 = "#808080"`. -/
theorem lerpColor_eq_spec :
    (∀ color1 color2 amount,
        lerpColor color1 color2 amount = lerpColorSpec color1 color2 amount) ∧
      lerpColor "#000000" "#ffffff" (1/2) = "#808080" := by
  constructor
  · intro c1 c2 amount
    rcases h1 : hexToRgb c1 with _ | ⟨r1, g1, b1⟩ <;>
      rcases h2 : hexToRgb c2 with _ | ⟨r2, g2, b2⟩ <;>
        simp only [lerpColor, lerpColorSpec, h1, h2]
    obtain ⟨hr1, hg1, hb1⟩ := hexToRgb_le h1
    obtain ⟨hr2, hg2, hb2⟩ := hexToRgb_le h2
    have hr := jsRound_channel_bound hr1 hr2 amount
    have hg := jsRound_channel_bound hg1 hg2 amount
    have hb := jsRound_channel_bound hb1 hb2 amount
    exact rgbToHex_eq_pairs (by omega) (by omega) (by omega)
  · have hparse1 : hexToRgb "#000000" = some (0, 0, 0) := by decide
    have hparse2 : hexToRgb "#ffffff" = some (255, 255, 255) := by decide
    rw [lerpColor_eval hparse1 hparse2]
    rw [show max (0:ℚ) (min 1 (1/2)) = 1/2 by norm_num]
    rw [jsRound_eq (n := 128) (by norm_num) (by norm_num)]
    decide

/-! ## Claim C10: the two renderers clamp the animation parameters
identically -/

/-- C10 (confirmed).  The static SVG renderer (halftone.ts lines 139-140)
and the Lottie renderer (lines 350-351) clamp `pulseStrength` to
`[0, 0.35]` and `pulseTempo` to `[0.25, 3]` by the same formulas, so the
clamped values agree for every input, in range or not. -/
theorem clamp_cross_renderer_consistent (p t : ℚ) :
    svgClampedPulse p = lottieClampedPulse p ∧
      svgClampedTempo t = lottieClampedTempo t :=
  ⟨rfl, rfl⟩

/-! ## Claim C4: SVG shape elements match the filtered dot count -/

/-- C4 (confirmed).  The static SVG renderer emits exactly one per-dot
markup fragment — each holding exactly one shape element (`<circle>`,
`<rect>` or `<text>` according to `dotShape`) — for every dot with
`size > 0.1`, and none for a dot with `size ≤ 0.1`: the fragment list
joined into the document by `generateSvgString` has one entry per dot
passing the threshold, so the shape-element count equals the filtered
dot count. -/
theorem svg_shape_elements_match_filtered (dots : List Dot) (width height : ℚ)
    (s : HalftoneSettings) (organicPulse : Bool) (clampedTempo : ℚ) :
    (svgDotFragments dots width height s organicPulse clampedTempo).length =
      (dots.filter fun d => decide (0.1 < d.size)).length ∧
    ∀ d : Dot,
      (dotSvgFragment width height s organicPulse clampedTempo d).isSome ↔
        0.1 < d.size := by
  constructor
  · induction dots with
    | nil => rfl
    | cons d tl ih =>
      unfold svgDotFragments at ih ⊢
      rw [List.filterMap_cons, List.filter_cons]
      by_cases hd : (0.1 : ℚ) < d.size <;>
        simp [dotSvgFragment, hd, ih]
  · intro d
    by_cases hd : (0.1 : ℚ) < d.size <;>
      simp [dotSvgFragment, hd]

/-! ## Claim C6: degenerate (empty) dot fields -/

/-- C6 (confirmed).  On the empty dot field the static renderer returns
the empty string and the animated renderer returns a zero-layer document
whose out frame is still `ceil(8 / clamp(pulseTempo, 0.25, 3) * 60)`
(with `pulseTempo` defaulting to 1 when animation settings are absent);
neither renderer fails. -/
theorem empty_dot_field_renderers (width height : ℚ) (s : HalftoneSettings)
    (aopt : Option AnimationSettings) :
    generateSvgString [] width height s aopt = "" ∧
    (generateLottieAnimation [] width height s aopt).layers = [] ∧
    (generateLottieAnimation [] width height s aopt).op =
      ⌈8 / max 0.25 (min (animPulseTempo aopt) 3) * 60⌉ :=
  ⟨rfl, rfl, rfl⟩

/-! ## Claim C3: Lottie size governance -/

theorem filterIdxMod_length {α : Type} {k : ℕ} (hk : 0 < k) :
    ∀ (l : List α) (q j : ℕ), j < k →
      k * (filterIdxMod k (q * k + j) l).length ≤
        l.length + (if j = 0 then k - 1 else j - 1)
  | [], q, j, hj => by
    simp only [filterIdxMod, List.length_nil, Nat.mul_zero]
    omega
  | d :: tl, q, j, hj => by
    have hmod : (q * k + j) % k = j := by
      rw [mul_comm q k, Nat.mul_add_mod, Nat.mod_eq_of_lt hj]
    rw [filterIdxMod, hmod]
    by_cases hj0 : j = 0
    · subst hj0
      rw [if_pos rfl, if_pos rfl, List.length_cons, List.length_cons, Nat.mul_succ]
      by_cases hk1 : k = 1
      · subst hk1
        rw [show q * 1 + 0 + 1 = (q + 1) * 1 + 0 by ring]
        have := filterIdxMod_length hk tl (q + 1) 0 hk
        rw [if_pos rfl] at this
        omega
      · rw [show q * k + 0 + 1 = q * k + 1 by ring]
        have := filterIdxMod_length hk tl q 1 (by omega)
        rw [if_neg (by omega : ¬ (1 : ℕ) = 0)] at this
        omega
    · rw [if_neg hj0, if_neg hj0, List.length_cons]
      by_cases hjk : j + 1 = k
      · subst hjk
        rw [show q * (j + 1) + j + 1 = (q + 1) * (j + 1) + 0 by ring]
        have := filterIdxMod_length hk tl (q + 1) 0 hk
        rw [if_pos rfl] at this
        omega
      · rw [show q * k + j + 1 = q * k + (j + 1) by ring]
        have := filterIdxMod_length hk tl q (j + 1) (by omega)
        rw [if_neg (by omega : ¬ j + 1 = 0)] at this
        omega

theorem le_200_mul_lottieStride (n : ℕ) : n ≤ 200 * lottieStride n := by
  unfold lottieStride jsCeil
  have h1 : ((n : ℚ) / 200) ≤ (⌈(n : ℚ) / 200⌉ : ℚ) := Int.le_ceil _
  have h2 : (n : ℚ) ≤ 200 * (⌈(n : ℚ) / 200⌉ : ℚ) := by
    rw [div_le_iff₀ (by norm_num)] at h1
    linarith
  have h0 : (0 : ℤ) ≤ ⌈(n : ℚ) / 200⌉ := Int.ceil_nonneg (by positivity)
  have h3 : (n : ℤ) ≤ 200 * ⌈(n : ℚ) / 200⌉ := by exact_mod_cast h2
  omega

theorem sampleDots_length_le (l : List Dot) : (sampleDots l).length ≤ 200 := by
  unfold sampleDots
  by_cases h : l.length > 200
  · rw [if_pos h]
    set k := lottieStride l.length with hk
    have hkpos : 0 < k := by
      rw [hk]
      unfold lottieStride jsCeil
      have : (0 : ℤ) < ⌈(l.length : ℚ) / 200⌉ := by
        rw [Int.ceil_pos]
        positivity
      omega
    have hcount := filterIdxMod_length hkpos l 0 0 hkpos
    rw [if_pos rfl, Nat.zero_mul, Nat.zero_add] at hcount
    have hlen : l.length ≤ 200 * k := le_200_mul_lottieStride l.length
    have h2 : k * (filterIdxMod k 0 l).length < k * 201 := by
      have h1 : k * (filterIdxMod k 0 l).length ≤ 200 * k + (k - 1) := by omega
      have h15 : 200 * k + (k - 1) < k * 201 := by omega
      omega
    have h4 := Nat.lt_of_mul_lt_mul_left h2
    omega
  · rw [if_neg h]
    omega

theorem lottieLayersFrom_length (width height : ℚ) (s : HalftoneSettings)
    (organicPulse : Bool) (clampedTempo maxScale : ℚ) (outPoint : ℤ) :
    ∀ (i : ℕ) (l : List Dot),
      (lottieLayersFrom width height s organicPulse clampedTempo maxScale
        outPoint i l).length = l.length
  | _, [] => rfl
  | i, d :: tl => by
    rw [lottieLayersFrom, List.length_cons, List.length_cons,
      lottieLayersFrom_length width height s organicPulse clampedTempo maxScale
        outPoint (i + 1) tl]

/-- C3 (confirmed).  The Lottie document never holds more than 200
layers (tiny dots are dropped, the rest subsampled with stride
`ceil(n/200)`), and its out frame is exactly
`ceil(8 / clamp(pulseTempo, 0.25, 3) * 60)`, with `pulseTempo`
defaulting to 1 when the animation settings are absent. -/
theorem lottie_size_governance (dots : List Dot) (width height : ℚ)
    (s : HalftoneSettings) (aopt : Option AnimationSettings) :
    (generateLottieAnimation dots width height s aopt).layers.length ≤ 200 ∧
    (generateLottieAnimation dots width height s aopt).op =
      ⌈8 / max 0.25 (min (animPulseTempo aopt) 3) * 60⌉ := by
  constructor
  · show (lottieLayersFrom _ _ _ _ _ _ _ 0 (sampleDots _)).reverse.length ≤ 200
    rw [List.length_reverse, lottieLayersFrom_length]
    exact sampleDots_length_le _
  · rfl

/-! ## Claim C1: dot count of `generateDotsData` -/

/-- C1, amended (the source applies no minimum of 1 to the row count):
`generateDotsData` returns exactly `rows * cols` dots where
`cols = resolution` and `rows = round(cols * height / width)`; in
particular the result is empty when the rounded row count is 0. -/
theorem generateDotsData_length (pixelData : ℕ → ℕ) (width height : ℕ)
    (s : HalftoneSettings) (rand : ℕ → ℚ) :
    (generateDotsData pixelData width height s rand).length =
      gridRows width height s.resolution * s.resolution := by
  unfold generateDotsData
  rw [List.length_flatMap]
  simp [Function.comp_def, mul_comm]

/-- C1, counterexample to the claim as stated: for a 3×1 image at
resolution 1 the rounded row count is `round(1/3) = 0`, so the source
returns 0 dots while the claim predicts
`max(1, round(cols*height/width)) * cols = 1` dots. -/
theorem c1_claim_counterexample :
    (generateDotsData zeroPixels 3 1 baseSettings zeroRand).length ≠
      max 1 (jsRound ((baseSettings.resolution : ℚ) *
        ((1 : ℚ) / (3 : ℚ)))).toNat * baseSettings.resolution := by
  have hrows : gridRows 3 1 1 = 0 := by
    unfold gridRows gridRowsZ
    rw [jsRound_eq (n := 0) (by norm_num) (by norm_num)]
    rfl
  have hround : jsRound ((baseSettings.resolution : ℚ) * ((1 : ℚ) / (3 : ℚ))) = 0 := by
    exact jsRound_eq (by norm_num [baseSettings]) (by norm_num [baseSettings])
  have hlen : (generateDotsData zeroPixels 3 1 baseSettings zeroRand).length = 0 := by
    unfold generateDotsData
    norm_num [baseSettings] at hrows ⊢
    rw [hrows]
    simp
  rw [hlen, hround]
  norm_num [baseSettings]

/-! ## Claim C2: gradient colors of `generateDotsData` -/

/-- C2, amended (the source computes the gradient position from the cell
top-left corner, not the cell center): for every grid cell `(r, c)` the
emitted color is `lerp(color1, color2, clamp(p,0,1))` with
`p = (r*cellHeight)/height` for the vertical direction and
`p = (c*cellWidth)/width` for the horizontal direction, and `color1`
when `useGradient` is false; stated as the row-major color sequence of
the generated dots. -/
theorem generateDotsData_colors (pixelData : ℕ → ℕ) (width height : ℕ)
    (s : HalftoneSettings) (rand : ℕ → ℚ) :
    (generateDotsData pixelData width height s rand).map Dot.color =
      (List.range (gridRows width height s.resolution)).flatMap fun (r : ℕ) =>
        (List.range s.resolution).map fun (c : ℕ) =>
          if s.useGradient then
            lerpColor s.color1 s.color2
              (min 1 (max 0
                (if s.gradientDirection = GradientDirection.vertical
                 then ((r : ℚ) * cellHeight width height s.resolution) / (height : ℚ)
                 else ((c : ℚ) * cellWidth width s.resolution) / (width : ℚ))))
          else s.color1 := by
  unfold generateDotsData
  rw [List.map_flatMap]
  apply List.flatMap_congr
  intro r _
  rw [List.map_map]
  apply List.map_congr_left
  intro c _
  show (genDot pixelData width height s rand r c).color = _
  unfold genDot
  by_cases hg : s.useGradient
  · simp only [hg, if_true]
    rw [lerpColor_clamp]
  · simp [hg]

/-- C2, counterexample to the claim as stated: a 2×2 all-black image at
resolution 1 with a vertical black-to-white gradient produces the single
color `#000000` (gradient position `y/height = 0` at the cell top-left),
while the claimed cell-center position `(0*cellHeight + cellHeight/2)/height
= 1/2` would give `#808080`. -/
theorem c2_claim_counterexample :
    (generateDotsData zeroPixels 2 2 gradientSettings zeroRand).map Dot.color ≠
      [lerpColor gradientSettings.color1 gradientSettings.color2
        (min 1 (max 0
          (((0 : ℚ) * cellHeight 2 2 gradientSettings.resolution +
            cellHeight 2 2 gradientSettings.resolution / 2) / 2)))] := by
  have hres : gradientSettings.resolution = 1 := rfl
  have hc1 : gradientSettings.color1 = "#000000" := rfl
  have hc2 : gradientSettings.color2 = "#ffffff" := rfl
  have hrows : gridRows 2 2 1 = 1 := by
    unfold gridRows gridRowsZ
    rw [jsRound_eq (n := 1) (by norm_num) (by norm_num)]
    rfl
  have hch : cellHeight 2 2 1 = 2 := by
    unfold cellHeight
    rw [hrows]
    norm_num
  have hparse1 : hexToRgb "#000000" = some (0, 0, 0) := by decide
  have hparse2 : hexToRgb "#ffffff" = some (255, 255, 255) := by decide
  have hrange1 : List.range 1 = [0] := rfl
  have hlhs : (generateDotsData zeroPixels 2 2 gradientSettings zeroRand).map Dot.color =
      ["#000000"] := by
    unfold generateDotsData
    rw [hres, hrows, hrange1]
    simp only [List.flatMap_cons, List.flatMap_nil, List.append_nil, List.map_map,
      List.map_cons, List.map_nil, Function.comp_apply]
    show [(genDot zeroPixels 2 2 gradientSettings zeroRand 0 0).color] = _
    unfold genDot
    simp only [hres, hc1, hc2, hch]
    have hg : gradientSettings.useGradient = true := rfl
    have hd : gradientSettings.gradientDirection = GradientDirection.vertical := rfl
    simp only [hg, hd, if_true, Nat.cast_zero, zero_mul, if_pos rfl]
    rw [show ((0 : ℚ) / (2 : ℕ) : ℚ) = 0 by norm_num]
    rw [lerpColor_eval hparse1 hparse2]
    rw [show max (0:ℚ) (min 1 0) = 0 by norm_num]
    rw [jsRound_eq (n := 0) (by norm_num) (by norm_num)]
    decide
  rw [hlhs]
  have hamount : min (1:ℚ) (max 0
      (((0 : ℚ) * cellHeight 2 2 gradientSettings.resolution +
        cellHeight 2 2 gradientSettings.resolution / 2) / 2)) = 1/2 := by
    rw [hres, hch]
    norm_num
  rw [hamount, hc1, hc2, lerpColor_eval hparse1 hparse2]
  rw [show max (0:ℚ) (min 1 (1/2)) = 1/2 by norm_num]
  rw [jsRound_eq (n := 128) (by norm_num) (by norm_num)]
  decide

/-! ## Claim C7: dot size bounds -/

/-- C7 (confirmed).  Every generated dot's size lies in
`[0, (min(cellWidth, cellHeight)/2) * dotSize]`, and for positive
`dotSize` the upper bound is attained exactly when the sampled (raw)
luminance is 1, or 0 when `invert` is set. -/
theorem genDot_size_bound (pixelData : ℕ → ℕ) (width height : ℕ)
    (s : HalftoneSettings) (rand : ℕ → ℚ) (r c : ℕ)
    (hpix : ∀ i, pixelData i ≤ 255)
    (hw : 0 < width) (hh : 0 < height) (hres : 0 < s.resolution)
    (hds : 0 ≤ s.dotSize)
    (hr : r < gridRows width height s.resolution) :
    0 ≤ (genDot pixelData width height s rand r c).size ∧
    (genDot pixelData width height s rand r c).size ≤
      (min (cellWidth width s.resolution)
        (cellHeight width height s.resolution) / 2) * s.dotSize ∧
    (0 < s.dotSize →
      ((genDot pixelData width height s rand r c).size =
        (min (cellWidth width s.resolution)
          (cellHeight width height s.resolution) / 2) * s.dotSize ↔
        (if s.invert then rawLuminance pixelData width height s r c = 0
         else rawLuminance pixelData width height s r c = 1))) := by
  have hL : 0 ≤ rawLuminance pixelData width height s r c ∧
      rawLuminance pixelData width height s r c ≤ 1 := by
    unfold rawLuminance
    constructor
    · positivity
    · rw [div_le_one (by norm_num)]
      have h1 : ((pixelData (pixelIndexAt width height s r c).toNat : ℕ) : ℚ) ≤ 255 := by
        exact_mod_cast hpix _
      have h2 : ((pixelData (pixelIndexAt width height s r c + 1).toNat : ℕ) : ℚ) ≤ 255 := by
        exact_mod_cast hpix _
      have h3 : ((pixelData (pixelIndexAt width height s r c + 2).toNat : ℕ) : ℚ) ≤ 255 := by
        exact_mod_cast hpix _
      have h1' : (0 : ℚ) ≤ ((pixelData (pixelIndexAt width height s r c).toNat : ℕ) : ℚ) := by
        positivity
      have h2' : (0 : ℚ) ≤ ((pixelData (pixelIndexAt width height s r c + 1).toNat : ℕ) : ℚ) := by
        positivity
      have h3' : (0 : ℚ) ≤ ((pixelData (pixelIndexAt width height s r c + 2).toNat : ℕ) : ℚ) := by
        positivity
      linarith
  have hsize : (genDot pixelData width height s rand r c).size =
      ((min (cellWidth width s.resolution)
        (cellHeight width height s.resolution) / 2) * s.dotSize) *
      (if s.invert then 1 - rawLuminance pixelData width height s r c
       else rawLuminance pixelData width height s r c) := rfl
  have hcw : 0 < cellWidth width s.resolution := by
    unfold cellWidth
    have h1 : (0 : ℚ) < (width : ℚ) := by exact_mod_cast hw
    have h2 : (0 : ℚ) < (s.resolution : ℚ) := by exact_mod_cast hres
    positivity
  have hrows : 0 < gridRows width height s.resolution := by omega
  have hch : 0 < cellHeight width height s.resolution := by
    unfold cellHeight
    have h1 : (0 : ℚ) < (height : ℚ) := by exact_mod_cast hh
    have h2 : (0 : ℚ) < (gridRows width height s.resolution : ℚ) := by
      exact_mod_cast hrows
    positivity
  have hmin : 0 < min (cellWidth width s.resolution)
      (cellHeight width height s.resolution) := lt_min hcw hch
  set b := (min (cellWidth width s.resolution)
    (cellHeight width height s.resolution) / 2) * s.dotSize with hb
  have hb0 : 0 ≤ b := by
    rw [hb]
    have : 0 ≤ min (cellWidth width s.resolution)
        (cellHeight width height s.resolution) / 2 := by positivity
    exact mul_nonneg this hds
  set leff := (if s.invert then 1 - rawLuminance pixelData width height s r c
    else rawLuminance pixelData width height s r c) with hleff
  have hleff0 : 0 ≤ leff := by
    rw [hleff]
    split <;> linarith [hL.1, hL.2]
  have hleff1 : leff ≤ 1 := by
    rw [hleff]
    split <;> linarith [hL.1, hL.2]
  refine ⟨?_, ?_, ?_⟩
  · rw [hsize]
    exact mul_nonneg hb0 hleff0
  · rw [hsize]
    calc b * leff ≤ b * 1 := mul_le_mul_of_nonneg_left hleff1 hb0
    _ = b := mul_one b
  · intro hds'
    have hbpos : 0 < b := by
      rw [hb]
      have : 0 < min (cellWidth width s.resolution)
          (cellHeight width height s.resolution) / 2 := by positivity
      exact mul_pos this hds'
    rw [hsize]
    constructor
    · intro heq
      have : leff = 1 := by
        have h1 : b * leff = b * 1 := by rw [mul_one]; exact heq
        exact mul_left_cancel₀ (ne_of_gt hbpos) h1
      rw [hleff] at this
      by_cases hinv : s.invert
      · simp only [hinv, if_true] at this ⊢
        linarith
      · simp only [hinv, if_false] at this ⊢
        simp only [Bool.false_eq_true, if_false] at this ⊢
        exact this
    · intro hlum
      have : leff = 1 := by
        rw [hleff]
        by_cases hinv : s.invert
        · simp only [hinv, if_true] at hlum ⊢
          rw [hlum]
          norm_num
        · simp only [hinv] at hlum ⊢
          simp only [Bool.false_eq_true, if_false] at hlum ⊢
          exact hlum
      rw [this, mul_one]

/-- Witness for C7 at a concrete input: a 1×1 all-white image at
resolution 1, `dotSize = 1`; the single cell's raw luminance is 1 and
the dot size attains the bound `min(1,1)/2 * 1 = 1/2`. -/
theorem genDot_size_bound_witness :
    (∀ i, whitePixels i ≤ 255) ∧ 0 < (1 : ℕ) ∧
      0 < baseSettings.resolution ∧ (0 : ℚ) ≤ baseSettings.dotSize ∧
      0 < gridRows 1 1 baseSettings.resolution ∧
    (0 ≤ (genDot whitePixels 1 1 baseSettings zeroRand 0 0).size ∧
     (genDot whitePixels 1 1 baseSettings zeroRand 0 0).size ≤
       (min (cellWidth 1 baseSettings.resolution)
         (cellHeight 1 1 baseSettings.resolution) / 2) * baseSettings.dotSize ∧
     (0 < baseSettings.dotSize →
       ((genDot whitePixels 1 1 baseSettings zeroRand 0 0).size =
         (min (cellWidth 1 baseSettings.resolution)
           (cellHeight 1 1 baseSettings.resolution) / 2) * baseSettings.dotSize ↔
         (if baseSettings.invert
          then rawLuminance whitePixels 1 1 baseSettings 0 0 = 0
          else rawLuminance whitePixels 1 1 baseSettings 0 0 = 1)))) := by
  have hrows : gridRows 1 1 baseSettings.resolution = 1 := by
    show gridRows 1 1 1 = 1
    unfold gridRows gridRowsZ
    rw [jsRound_eq (n := 1) (by norm_num) (by norm_num)]
    rfl
  refine ⟨fun i => le_refl 255, by norm_num, by norm_num [baseSettings],
    by norm_num [baseSettings], by omega, ?_⟩
  exact genDot_size_bound whitePixels 1 1 baseSettings zeroRand 0 0
    (fun i => le_refl 255) (by norm_num) (by norm_num)
    (by norm_num [baseSettings]) (by norm_num [baseSettings]) (by omega)

/-! ## Claim C9: determinism at randomness 0 -/

/-- C9 (confirmed).  With `randomness = 0` the jitter terms vanish, so
`generateDotsData` is independent of the random stream: two calls with
the same pixel buffer, dimensions and settings return identical dot
sequences regardless of the values drawn. -/
theorem generateDotsData_deterministic (pixelData : ℕ → ℕ)
    (width height : ℕ) (s : HalftoneSettings) (hrand : s.randomness = 0)
    (rand1 rand2 : ℕ → ℚ) :
    generateDotsData pixelData width height s rand1 =
      generateDotsData pixelData width height s rand2 := by
  unfold generateDotsData
  apply List.flatMap_congr
  intro r _
  apply List.map_congr_left
  intro c _
  unfold genDot
  rw [hrand]
  norm_num

/-- Witness for C9 at a concrete input: the zero stream and a nontrivial
stream give the same dot list for a 2×2 image when `randomness = 0`. -/
theorem generateDotsData_deterministic_witness :
    baseSettings.randomness = 0 ∧
    generateDotsData zeroPixels 2 2 baseSettings zeroRand =
      generateDotsData zeroPixels 2 2 baseSettings altRand :=
  ⟨rfl, generateDotsData_deterministic zeroPixels 2 2 baseSettings rfl
    zeroRand altRand⟩

/-! ## Claim C8: the Lottie export is independent of dot colors and the
color/gradient settings -/

theorem mkLottieLayer_congr (width height : ℚ) (s : HalftoneSettings)
    (c1 c2 : String) (ug : Bool) (gd : GradientDirection)
    (organicPulse : Bool) (clampedTempo maxScale : ℚ) (outP : ℤ) (i : ℕ)
    {d1 d2 : Dot} (h : dotGeom d1 = dotGeom d2) :
    mkLottieLayer width height s organicPulse clampedTempo maxScale outP i d1 =
      mkLottieLayer width height
        { s with
          color1 := c1
          color2 := c2
          useGradient := ug
          gradientDirection := gd }
        organicPulse clampedTempo maxScale outP i d2 := by
  obtain ⟨x1, y1, s1, col1⟩ := d1
  obtain ⟨x2, y2, s2, col2⟩ := d2
  simp only [dotGeom, Prod.mk.injEq] at h
  obtain ⟨hx, hy, hs⟩ := h
  subst hx
  subst hy
  subst hs
  cases s
  rfl

theorem filter_geom_congr :
    ∀ (l1 l2 : List Dot), l1.map dotGeom = l2.map dotGeom →
      (l1.filter fun d => decide (0.1 < d.size)).map dotGeom =
        (l2.filter fun d => decide (0.1 < d.size)).map dotGeom
  | [], [], _ => rfl
  | [], _ :: _, h => by simp at h
  | _ :: _, [], h => by simp at h
  | d1 :: t1, d2 :: t2, h => by
    simp only [List.map_cons, List.cons.injEq] at h
    obtain ⟨hd, ht⟩ := h
    have hsize : d1.size = d2.size := by
      have h2 := congrArg (fun p : ℚ × ℚ × ℚ => p.2.2) hd
      simpa [dotGeom] using h2
    have ih := filter_geom_congr t1 t2 ht
    rw [List.filter_cons, List.filter_cons, hsize]
    by_cases hp : (0.1 : ℚ) < d2.size
    · simp [hp, ih, hd]
    · simp [hp, ih]

theorem filterIdxMod_geom_congr (k : ℕ) :
    ∀ (i : ℕ) (l1 l2 : List Dot), l1.map dotGeom = l2.map dotGeom →
      (filterIdxMod k i l1).map dotGeom = (filterIdxMod k i l2).map dotGeom
  | _, [], [], _ => rfl
  | _, [], _ :: _, h => by simp at h
  | _, _ :: _, [], h => by simp at h
  | i, d1 :: t1, d2 :: t2, h => by
    simp only [List.map_cons, List.cons.injEq] at h
    obtain ⟨hd, ht⟩ := h
    have ih := filterIdxMod_geom_congr k (i + 1) t1 t2 ht
    rw [filterIdxMod, filterIdxMod]
    by_cases hp : i % k = 0
    · simp [hp, ih, hd]
    · simp [hp, ih]

theorem lottieLayersFrom_congr (width height : ℚ) (s : HalftoneSettings)
    (c1 c2 : String) (ug : Bool) (gd : GradientDirection)
    (organicPulse : Bool) (clampedTempo maxScale : ℚ) (outP : ℤ) :
    ∀ (i : ℕ) (l1 l2 : List Dot), l1.map dotGeom = l2.map dotGeom →
      lottieLayersFrom width height s organicPulse clampedTempo maxScale
          outP i l1 =
        lottieLayersFrom width height
          { s with
            color1 := c1
            color2 := c2
            useGradient := ug
            gradientDirection := gd }
          organicPulse clampedTempo maxScale outP i l2
  | _, [], [], _ => rfl
  | _, [], _ :: _, h => by simp at h
  | _, _ :: _, [], h => by simp at h
  | i, d1 :: t1, d2 :: t2, h => by
    simp only [List.map_cons, List.cons.injEq] at h
    obtain ⟨hd, ht⟩ := h
    rw [lottieLayersFrom, lottieLayersFrom]
    rw [mkLottieLayer_congr width height s c1 c2 ug gd organicPulse
      clampedTempo maxScale outP i hd]
    rw [lottieLayersFrom_congr width height s c1 c2 ug gd organicPulse
      clampedTempo maxScale outP (i + 1) t1 t2 ht]

theorem lottieLayersFrom_fill_black (width height : ℚ) (s : HalftoneSettings)
    (organicPulse : Bool) (clampedTempo maxScale : ℚ) (outP : ℤ) :
    ∀ (i : ℕ) (l : List Dot) (layer : LottieLayer),
      layer ∈ lottieLayersFrom width height s organicPulse clampedTempo
        maxScale outP i l →
      ∀ g ∈ layer.shapes, g.fill.c = createStaticProperty [0, 0, 0]
  | i, [], layer, hmem => by simp [lottieLayersFrom] at hmem
  | i, d :: tl, layer, hmem => by
    rw [lottieLayersFrom] at hmem
    rcases List.mem_cons.mp hmem with hEq | hmem'
    · subst hEq
      intro g hg
      simp only [mkLottieLayer, List.mem_singleton] at hg
      subst hg
      rfl
    · exact lottieLayersFrom_fill_black width height s organicPulse
        clampedTempo maxScale outP (i + 1) tl layer hmem'

/-- C8 (confirmed).  The Lottie document depends on dots only through
position and size, and on the settings not at all through
`color1`/`color2`/`useGradient`/`gradientDirection`: two dot fields
agreeing on geometry but with arbitrary colors, rendered under settings
differing only in those four fields, produce identical documents, and
every layer's fill color is the fixed black `[0,0,0]`. -/
theorem lottie_color_independent (dots1 dots2 : List Dot)
    (width height : ℚ) (s : HalftoneSettings) (c1 c2 : String) (ug : Bool)
    (gd : GradientDirection) (aopt : Option AnimationSettings)
    (hgeom : dots1.map dotGeom = dots2.map dotGeom) :
    generateLottieAnimation dots1 width height s aopt =
      generateLottieAnimation dots2 width height
        { s with
          color1 := c1
          color2 := c2
          useGradient := ug
          gradientDirection := gd } aopt ∧
    ∀ layer ∈ (generateLottieAnimation dots1 width height s aopt).layers,
      ∀ g ∈ layer.shapes, g.fill.c = createStaticProperty [0, 0, 0] := by
  have hfilter := filter_geom_congr dots1 dots2 hgeom
  have hlenf : (dots1.filter fun d => decide (0.1 < d.size)).length =
      (dots2.filter fun d => decide (0.1 < d.size)).length := by
    have h2 := congrArg List.length hfilter
    simpa using h2
  have hsample : (sampleDots (dots1.filter fun d => decide (0.1 < d.size))).map dotGeom =
      (sampleDots (dots2.filter fun d => decide (0.1 < d.size))).map dotGeom := by
    unfold sampleDots
    rw [hlenf]
    by_cases hlen : (dots2.filter fun d => decide (0.1 < d.size)).length > 200
    · rw [if_pos hlen, if_pos hlen]
      exact filterIdxMod_geom_congr _ 0 _ _ hfilter
    · rw [if_neg hlen, if_neg hlen]
      exact hfilter
  have hlayers := lottieLayersFrom_congr width height s c1 c2 ug gd
    (animOrganicPulse aopt) (lottieClampedTempo (animPulseTempo aopt))
    (1 + lottieClampedPulse (animPulseStrength aopt))
    (jsCeil (8 / lottieClampedTempo (animPulseTempo aopt) * 60)) 0 _ _ hsample
  constructor
  · unfold generateLottieAnimation
    dsimp only
    rw [hlayers]
  · intro layer hmem g hg
    have hmem' : layer ∈ lottieLayersFrom width height s
        (animOrganicPulse aopt) (lottieClampedTempo (animPulseTempo aopt))
        (1 + lottieClampedPulse (animPulseStrength aopt))
        (jsCeil (8 / lottieClampedTempo (animPulseTempo aopt) * 60)) 0
        (sampleDots (dots1.filter fun d => decide (0.1 < d.size))) := by
      unfold generateLottieAnimation at hmem
      dsimp only at hmem
      simp only [List.mem_reverse] at hmem
      exact hmem
    exact lottieLayersFrom_fill_black width height s
      (animOrganicPulse aopt) (lottieClampedTempo (animPulseTempo aopt))
      (1 + lottieClampedPulse (animPulseStrength aopt))
      (jsCeil (8 / lottieClampedTempo (animPulseTempo aopt) * 60)) 0
      _ layer hmem' g hg

/-- Witness for C8 at a concrete input: two one-dot fields with equal
geometry but different colors, under settings differing in all four
color/gradient fields, yield identical documents with black fills. -/
theorem lottie_color_independent_witness :
    dotsA.map dotGeom = dotsB.map dotGeom ∧
    (generateLottieAnimation dotsA 10 10 baseSettings none =
      generateLottieAnimation dotsB 10 10
        { baseSettings with
          color1 := "#123456"
          color2 := "#654321"
          useGradient := true
          gradientDirection := GradientDirection.horizontal } none ∧
     ∀ layer ∈ (generateLottieAnimation dotsA 10 10 baseSettings none).layers,
       ∀ g ∈ layer.shapes, g.fill.c = createStaticProperty [0, 0, 0]) :=
  ⟨rfl, lottie_color_independent dotsA dotsB 10 10 baseSettings "#123456"
    "#654321" true GradientDirection.horizontal none rfl⟩

end Halftone
